import Mathlib

/-!
Shallow embedding of OpenZWave `Alarm.cpp` (COMMAND_CLASS_ALARM), the single
source file of this repository, together with proofs about the natural-language
specification of its decode / request-sequencing / capability-discovery logic.

Conventions of the embedding:
* a wire frame is a `List Nat` of byte values together with the declared
  `_length`; `byteAt data i` models the C pointer read `_data[i]` (the C++ code
  can read past `_length`, so reads are modelled on the full list and the
  indices actually read are recorded in `readsIdx`);
* the external attribute store is modelled as the list of attribute
  identifiers that have been materialized for the instance; `GetValue`
  succeeding corresponds to membership in that list;
* side effects of a `HandleMsg` call are collected in a `HandleResult`:
  `OnValueRefreshed` calls, `CreateValueByte` requests, `Log::Write` calls,
  the indices of `_data` read, and the state of the static-request flag
  afterwards.  `HandleMsg` is a total function: no exception path exists.
-/

/-- Opcode `AlarmCmd_Get = 0x04` from the `AlarmCmd` enum. -/
def AlarmCmd_Get : Nat := 0x04

/-- Opcode `AlarmCmd_Report = 0x05` from the `AlarmCmd` enum. -/
def AlarmCmd_Report : Nat := 0x05

/-- Opcode `AlarmCmd_Set = 0x06` from the `AlarmCmd` enum (version 2). -/
def AlarmCmd_Set : Nat := 0x06

/-- Opcode `AlarmCmd_SupportedGet = 0x07` from the `AlarmCmd` enum (version 2). -/
def AlarmCmd_SupportedGet : Nat := 0x07

/-- Opcode `AlarmCmd_SupportedReport = 0x08` from the `AlarmCmd` enum (version 2). -/
def AlarmCmd_SupportedReport : Nat := 0x08

/-- Attribute identifier `AlarmIndex_Type = 0` (active enum in `Alarm.cpp`). -/
def AlarmIndex_Type : Nat := 0

/-- Attribute identifier `AlarmIndex_Level = 1`. -/
def AlarmIndex_Level : Nat := 1

/-- Attribute identifier `AlarmIndex_SourceNodeId = 2`. -/
def AlarmIndex_SourceNodeId : Nat := 2

/-- The names of the alarm-type family, `c_alarmTypeName` in the source. -/
def c_alarmTypeName : List String :=
  ["General", "Smoke", "Carbon Monoxide", "Carbon Dioxide", "Heat", "Flood",
   "Access Control", "Burglar", "Power Management", "System", "Emergency",
   "Clock", "Appliance", "HomeHealth"]

/-- `Alarm_Count = 14`, the size of the alarm-type family enumeration. -/
def Alarm_Count : Nat := 14

/-- The Kwikset lock-state table `c_lockStates` of the source, indexed with an
offset of 17.  In the source this table sits inside an `#if 0` block: it is
compiled out and unreachable from the active code. -/
def c_lockStates : List String :=
  ["Secured at Keypad - Jammed", "Secured at Keypad - Success",
   "Unsecured at Keypad", "Unknown", "Secured Manually", "Unsecured Manually",
   "Secured by Controller - Jammed", "Secured by Controller",
   "Unsecured by Controller"]

/-- Modelled from the spec: the derived textual lock state the specification
describes (primaryType in the access-control band 17..25, offset-17 lookup in
the lock-state table).  The active source has no such derivation; this
definition exists only to compare the specification against the code. -/
def specLockText (primaryType : Nat) : Option String :=
  if 17 ≤ primaryType ∧ primaryType ≤ 25 then
    some (c_lockStates.getD (primaryType - 17) "Unknown")
  else
    none

/-- Modelled from the spec: the 0x1F-masked interpretation of byte 1 of a
SupportedReport (top bits a reserved version sub-field, low five bits the
count of mask bytes).  The source never applies this interpretation; the
definition exists only to compare the specification against the code. -/
def specMaskedCount (b : Nat) : Nat := b &&& 0x1F

/-- `_data[i]` : a raw pointer read.  The C++ code indexes `_data` without
consulting `_length`, so the model reads from the byte list directly (missing
bytes default to 0); which indices a call actually reads is tracked
separately in `HandleResult.readsIdx`. -/
def byteAt (data : List Nat) (i : Nat) : Nat := data.getD i 0

/-- The per-adapter state of `Alarm` relevant to the embedded operations:
the negotiated version (`GetVersion()`), the static-request flag
(`HasStaticRequest( StaticRequest_Values )`), whether the node reports Get
support (`IsGetSupported()`), whether `GetNodeUnsafe()` returns a node, and
the set of attribute identifiers materialized in the store for the instance
(`GetValue( _instance, id )` succeeds iff `id` is in `store`). -/
structure AdapterState where
  version : Nat
  hasStaticRequestValues : Bool
  getSupported : Bool
  nodeAvailable : Bool
  store : List Nat
  deriving Repr, DecidableEq

/-- The observable effects of one `HandleMsg` call. -/
structure HandleResult where
  /-- the boolean returned to the driver -/
  consumed : Bool
  /-- `OnValueRefreshed` calls, as (attribute identifier, byte value) pairs -/
  refreshes : List (Nat × Nat)
  /-- `ValueString::OnValueRefreshed` calls; the active code contains none
  (the Kwikset lock-state handling is compiled out under `#if 0`) -/
  stringRefreshes : List (Nat × String)
  /-- `CreateValueByte` requests sent to the node, by attribute identifier -/
  creates : List Nat
  /-- indices of `_data` that the call reads -/
  readsIdx : List Nat
  /-- number of `Log::Write` calls -/
  logs : Nat
  /-- state of the `StaticRequest_Values` flag after the call -/
  hasStaticAfter : Bool
  deriving Repr, DecidableEq

/-- The `AlarmCmd_Report` branch of `Alarm::HandleMsg` (lines 307-351).
At version 1 the log reads `_data[1]`, `_data[2]`; at version greater than 1
the log reads `_data[5]` (alarm-type name lookup) and `_data[1]`..`_data[6]`,
without any length guard.  The refreshes of indices `AlarmIndex_Type` and
`AlarmIndex_Level` happen at every version; the source-node and sub-type
refreshes are guarded by `GetVersion() > 1 && _length >= 7`. -/
def handleReport (s : AdapterState) (data : List Nat) (len : Nat) : HandleResult :=
  let logReads : List Nat := if s.version = 1 then [1, 2] else [5, 1, 2, 3, 6, 4]
  let typeRef : List (Nat × Nat) :=
    if s.store.contains AlarmIndex_Type then [(AlarmIndex_Type, byteAt data 1)] else []
  let typeReads : List Nat := if s.store.contains AlarmIndex_Type then [1] else []
  let levelRef : List (Nat × Nat) :=
    if s.store.contains AlarmIndex_Level then [(AlarmIndex_Level, byteAt data 2)] else []
  let levelReads : List Nat := if s.store.contains AlarmIndex_Level then [2] else []
  let v2 : List (Nat × Nat) × List Nat :=
    if s.version > 1 ∧ len ≥ 7 then
      let srcRef : List (Nat × Nat) :=
        if s.store.contains AlarmIndex_SourceNodeId then
          [(AlarmIndex_SourceNodeId, byteAt data 3)]
        else []
      let srcReads : List Nat := if s.store.contains AlarmIndex_SourceNodeId then [3] else []
      let subId : Nat := byteAt data 5 + 3
      let subRef : List (Nat × Nat) :=
        if s.store.contains subId then [(subId, byteAt data 6)] else []
      let subReads : List Nat := 5 :: (if s.store.contains subId then [6] else [])
      (srcRef ++ subRef, srcReads ++ subReads)
    else ([], [])
  { consumed := true
    refreshes := typeRef ++ levelRef ++ v2.1
    stringRefreshes := []
    creates := []
    readsIdx := 0 :: (logReads ++ typeReads ++ levelReads ++ v2.2)
    logs := 1
    hasStaticAfter := s.hasStaticRequestValues }

/-- The bitmask expansion loop of the `AlarmCmd_SupportedReport` branch
(lines 364-381): for each mask byte `i` below `numBytes` and each bit
`0 ≤ bit < 8`, if `maskBytes[i] & (1 << bit)` is set, the ordinal
`i*8 + bit` is produced when it is below `familySize`
(`index < Alarm_Count` in the source). -/
def parseMask (maskBytes : List Nat) (familySize : Nat) : List Nat :=
  (List.range maskBytes.length).flatMap fun i =>
    (List.range 8).filterMap fun bit =>
      if (maskBytes.getD i 0) &&& (1 <<< bit) ≠ 0 then
        if i * 8 + bit < familySize then some (i * 8 + bit) else none
      else none

/-- The ordinals whose bit is set in the mask but that are at or above
`familySize`: the source logs an "Unknown alarm type" diagnostic for each
of these and stores nothing. -/
def droppedOrdinals (maskBytes : List Nat) (familySize : Nat) : List Nat :=
  (List.range maskBytes.length).flatMap fun i =>
    (List.range 8).filterMap fun bit =>
      if (maskBytes.getD i 0) &&& (1 <<< bit) ≠ 0 then
        if i * 8 + bit < familySize then none else some (i * 8 + bit)
      else none

/-- The mask bytes of a SupportedReport frame: `numBytes = _data[1]` bytes
starting at `_data[2]` (lines 364-365; `_data[1]` is taken as a plain byte
count, with no `0x1F` masking and no consultation of the version). -/
def supportedMaskBytes (data : List Nat) : List Nat :=
  (List.range (byteAt data 1)).map fun i => byteAt data (i + 2)

/-- The `AlarmCmd_SupportedReport` branch of `Alarm::HandleMsg` (lines
353-386).  When `GetNodeUnsafe()` yields a node, a `SourceNodeId` attribute is
created, the bitmask is expanded and one attribute per in-range ordinal is
created at identifier `ordinal + 3`; the logs are the "Received supported"
line, the "Added alarm SourceNodeId" line, one "Added alarm type" line per
created attribute and one "Unknown alarm type" line per dropped ordinal.
`ClearStaticRequest( StaticRequest_Values )` runs in every case, also when no
node is available and nothing was processed. -/
def handleSupported (s : AdapterState) (data : List Nat) : HandleResult :=
  if s.nodeAvailable then
    let ordinals : List Nat := parseMask (supportedMaskBytes data) Alarm_Count
    let dropped : List Nat := droppedOrdinals (supportedMaskBytes data) Alarm_Count
    { consumed := true
      refreshes := []
      stringRefreshes := []
      creates := AlarmIndex_SourceNodeId :: ordinals.map (· + 3)
      readsIdx := 0 :: 1 :: (List.range (byteAt data 1)).map (· + 2)
      logs := 2 + ordinals.length + dropped.length
      hasStaticAfter := false }
  else
    { consumed := true
      refreshes := []
      stringRefreshes := []
      creates := []
      readsIdx := [0]
      logs := 0
      hasStaticAfter := false }

/-- `Alarm::HandleMsg` (lines 300-389): dispatch on the opcode `_data[0]`.
Only `AlarmCmd_Report` and `AlarmCmd_SupportedReport` are consumed; any other
opcode falls through to `return false` with no effect.  The function is
total: no exception can propagate to the driver. -/
def handleMsg (s : AdapterState) (data : List Nat) (len : Nat) : HandleResult :=
  if byteAt data 0 = AlarmCmd_Report then
    handleReport s data len
  else if byteAt data 0 = AlarmCmd_SupportedReport then
    handleSupported s data
  else
    { consumed := false
      refreshes := []
      stringRefreshes := []
      creates := []
      readsIdx := [0]
      logs := 0
      hasStaticAfter := s.hasStaticRequestValues }

/-- The `Alarm` constructor (lines 193-201): it calls
`SetStaticRequest( StaticRequest_Values )` unconditionally, at every version. -/
def mkAlarm (version : Nat) (getSupported nodeAvailable : Bool) : AdapterState :=
  { version := version
    hasStaticRequestValues := true
    getSupported := getSupported
    nodeAvailable := nodeAvailable
    store := [] }

/-- An outbound frame as built by `Msg::Append` calls: the declared length
byte, the command byte, and the argument bytes appended between the command
and the transmit options. -/
structure Frame where
  lenByte : Nat
  cmd : Nat
  args : List Nat
  deriving Repr, DecidableEq

/-- `Alarm::RequestValue` (lines 244-294).  When Get is not supported, the
call logs and returns false with no frame.  At version 1 exactly one Get frame
is sent.  At higher versions one Get is sent per family ordinal `i` whose
attribute `i + 3` exists in the store, with a `0x00` byte, the ordinal, and at
version above 2 a trailing `0x01` "first event of type" byte; the declared
length byte is 4 at version 2 and 5 above. -/
def requestValue (s : AdapterState) : List Frame × Bool :=
  if s.getSupported then
    if s.version = 1 then
      ([⟨2, AlarmCmd_Get, []⟩], true)
    else
      let frames : List Frame := (List.range Alarm_Count).filterMap fun i =>
        if s.store.contains (i + 3) then
          some ⟨if s.version = 2 then 4 else 5, AlarmCmd_Get,
                [0, i] ++ (if s.version > 2 then [1] else [])⟩
        else none
      (frames, !frames.isEmpty)
  else
    ([], false)

/-- `Alarm::RequestState` (lines 208-238).  With the static flag set, the
static request pending and `GetVersion() > 1`, a single SupportedGet frame is
sent and the call returns true at once.  Otherwise, with the dynamic flag set
the call delegates to `RequestValue`; else it returns false with no frame. -/
def requestState (s : AdapterState) (staticFlag dynamicFlag : Bool) : List Frame × Bool :=
  if staticFlag ∧ s.hasStaticRequestValues ∧ s.version > 1 then
    ([⟨2, AlarmCmd_SupportedGet, []⟩], true)
  else if dynamicFlag then
    requestValue s
  else
    ([], false)

/-- Modelled from the spec: the attribute-store collaborator enforces
identifier uniqueness (spec, Attribute Synchronizer), so applying a list of
creation requests adds only the identifiers not already present. -/
def applyCreates (store : List Nat) (creates : List Nat) : List Nat :=
  store ++ creates.filter fun c => !store.contains c

/-- The number of mask bytes a `HandleMsg` call consumes: the reads of
`_data` at indices at or above 2, the mask region of a SupportedReport. -/
def maskBytesConsumed (s : AdapterState) (data : List Nat) : Nat :=
  ((handleMsg s data data.length).readsIdx.filter fun i => decide (2 ≤ i)).length

/-! ### Helper lemmas -/

theorem mem_parseMask {mask : List Nat} {F o : Nat} :
    o ∈ parseMask mask F ↔
      ∃ i b, i < mask.length ∧ b < 8 ∧ o = i * 8 + b ∧
        (mask.getD i 0) &&& (1 <<< b) ≠ 0 ∧ o < F := by
  simp only [parseMask, List.mem_flatMap, List.mem_filterMap, List.mem_range]
  constructor
  · rintro ⟨i, hi, b, hb, hsome⟩
    refine ⟨i, b, hi, hb, ?_⟩
    by_cases h1 : (mask.getD i 0) &&& (1 <<< b) ≠ 0
    · by_cases h2 : i * 8 + b < F
      · rw [if_pos h1, if_pos h2] at hsome
        obtain rfl : i * 8 + b = o := Option.some.inj hsome
        exact ⟨rfl, h1, h2⟩
      · rw [if_pos h1, if_neg h2] at hsome
        simp at hsome
    · rw [if_neg h1] at hsome
      simp at hsome
  · rintro ⟨i, b, hi, hb, rfl, h1, h2⟩
    exact ⟨i, hi, b, hb, by rw [if_pos h1, if_pos h2]⟩

theorem mem_droppedOrdinals {mask : List Nat} {F o : Nat} :
    o ∈ droppedOrdinals mask F ↔
      ∃ i b, i < mask.length ∧ b < 8 ∧ o = i * 8 + b ∧
        (mask.getD i 0) &&& (1 <<< b) ≠ 0 ∧ ¬ o < F := by
  simp only [droppedOrdinals, List.mem_flatMap, List.mem_filterMap, List.mem_range]
  constructor
  · rintro ⟨i, hi, b, hb, hsome⟩
    refine ⟨i, b, hi, hb, ?_⟩
    by_cases h1 : (mask.getD i 0) &&& (1 <<< b) ≠ 0
    · by_cases h2 : i * 8 + b < F
      · rw [if_pos h1, if_pos h2] at hsome
        simp at hsome
      · rw [if_pos h1, if_neg h2] at hsome
        obtain rfl : i * 8 + b = o := Option.some.inj hsome
        exact ⟨rfl, h1, h2⟩
    · rw [if_neg h1] at hsome
      simp at hsome
  · rintro ⟨i, b, hi, hb, rfl, h1, h2⟩
    exact ⟨i, hi, b, hb, by rw [if_pos h1, if_neg h2]⟩

/-! ### Claims -/

/-- C5: for every mask-byte sequence and family size, bitmask expansion
includes ordinal `i*8+b` exactly when bit `b` (least-significant first) of
mask byte `i` is set and `i*8+b < familySize`; every set bit whose ordinal is
at or above `familySize` lands in the dropped-with-diagnostic list and is
never in the stored expansion; and mask bytes `[0b00000101]` yield exactly
`{0, 2}`. -/
theorem bitmask_expansion_ordinals :
    (∀ (mask : List Nat) (F i b : Nat), i < mask.length → b < 8 →
      ((i * 8 + b ∈ parseMask mask F) ↔
        ((mask.getD i 0) &&& (1 <<< b) ≠ 0 ∧ i * 8 + b < F))) ∧
    (∀ (mask : List Nat) (F o : Nat), o ∈ droppedOrdinals mask F →
      o ∉ parseMask mask F) ∧
    parseMask [5] 14 = [0, 2] := by
  refine ⟨?_, ?_, by decide⟩
  · intro mask F i b hi hb
    rw [mem_parseMask]
    constructor
    · rintro ⟨i₂, b₂, hi₂, hb₂, heq, hbit, hlt⟩
      obtain ⟨rfl, rfl⟩ : i₂ = i ∧ b₂ = b := by omega
      exact ⟨hbit, hlt⟩
    · rintro ⟨hbit, hlt⟩
      exact ⟨i, b, hi, hb, rfl, hbit, hlt⟩
  · intro mask F o hd hp
    obtain ⟨i, b, hi, hb, rfl, hbit, hge⟩ := mem_droppedOrdinals.mp hd
    obtain ⟨i₂, b₂, hi₂, hb₂, heq, hbit₂, hlt⟩ := mem_parseMask.mp hp
    omega

/-- C5 witness: the characterization evaluated at mask `[0b00000101]`,
family size 14, byte 0, bit 2. -/
theorem bitmask_expansion_ordinals_witness :
    (0 * 8 + 2 ∈ parseMask [5] 14 ↔
      (([5].getD 0 0 : Nat) &&& (1 <<< 2) ≠ 0 ∧ 0 * 8 + 2 < 14)) :=
  bitmask_expansion_ordinals.1 [5] 14 0 2 (by decide) (by decide)

/-- C1: at version 2, handling a Report frame of declared length 3 (bytes
`[0x05, 1, 2]`) reads `_data[5]` and `_data[6]` — indices past `length-1` —
in the unguarded version-2 log (source lines 316-319), although the refreshed
attributes are correctly limited to the v1-equivalent subset.  This evaluates
the code at the failing input of the out-of-bounds-read claim. -/
theorem report_v2_short_frame_reads_past_length :
    5 ∈ (handleMsg ⟨2, true, true, true, [0, 1]⟩ [AlarmCmd_Report, 1, 2] 3).readsIdx ∧
    6 ∈ (handleMsg ⟨2, true, true, true, [0, 1]⟩ [AlarmCmd_Report, 1, 2] 3).readsIdx ∧
    3 - 1 < 5 ∧
    (handleMsg ⟨2, true, true, true, [0, 1]⟩ [AlarmCmd_Report, 1, 2] 3).refreshes =
      [(AlarmIndex_Type, 1), (AlarmIndex_Level, 2)] := by decide

/-- C3 counterexample: the specification expects primaryType 21 to yield the
derived text "Secured Manually", but handling a version-2 Report with
`_data[1] = 21` produces no string refresh at all: the lock-state derivation
sits in an `#if 0` block and is compiled out. -/
theorem report_type21_no_derived_text :
    specLockText 21 = some "Secured Manually" ∧
    (handleMsg ⟨2, true, true, true, [0, 1]⟩
      [AlarmCmd_Report, 21, 1, 0, 0, 0, 0] 7).stringRefreshes = [] := by decide

/-- C3 (amended): no inbound frame ever produces a derived textual lock
state — for every adapter state, frame and length, `HandleMsg` performs no
string-value refresh; in particular neither primaryType 21 nor primaryType 0
yields derived text. -/
theorem handleMsg_no_string_refresh (s : AdapterState) (data : List Nat) (len : Nat) :
    (handleMsg s data len).stringRefreshes = [] := by
  unfold handleMsg handleReport handleSupported
  repeat' split
  all_goals rfl

/-- C2 counterexample: with mask-count byte `0x3F` the handler consumes 63
mask bytes at version 2 and at version 3 alike — the plain byte-count reading
of `_data[1]` — while the 0x1F-masked interpretation the specification
requires the codec to select by version would consume 31; the masked encoding
is in effect at no version, so the interpretation is not selected from the
negotiated version. -/
theorem supportedReport_count_ignores_version :
    maskBytesConsumed ⟨2, true, true, true, []⟩ [AlarmCmd_SupportedReport, 0x3F] = 63 ∧
    maskBytesConsumed ⟨3, true, true, true, []⟩ [AlarmCmd_SupportedReport, 0x3F] = 63 ∧
    specMaskedCount 0x3F = 31 ∧ (63 : Nat) ≠ 31 := by decide

/-- C2 (amended): for every adapter state with an available node and every
SupportedReport frame, the number of mask bytes consumed equals `_data[1]`
taken as a plain byte count — the source applies this one encoding
unconditionally, with no `0x1F` masking and no consultation of the negotiated
version. -/
theorem supportedReport_plain_byte_count (s : AdapterState) (data : List Nat)
    (hop : byteAt data 0 = AlarmCmd_SupportedReport)
    (hnode : s.nodeAvailable = true) :
    maskBytesConsumed s data = byteAt data 1 := by
  unfold maskBytesConsumed handleMsg
  rw [if_neg (by rw [hop]; decide), if_pos hop]
  unfold handleSupported
  rw [if_pos hnode]
  simp only [List.filter_cons]
  norm_num
  rw [List.filter_eq_self.mpr]
  · rw [List.length_map, List.length_range]
  · intro a ha
    simp only [List.mem_map, List.mem_range] at ha
    obtain ⟨i, _, rfl⟩ := ha
    simp

/-- C2 witness: the amended count equation at a concrete version-2 state and
a SupportedReport frame with three mask bytes. -/
theorem supportedReport_plain_byte_count_witness :
    maskBytesConsumed ⟨2, true, true, true, []⟩ [AlarmCmd_SupportedReport, 3, 1, 2, 3] = 3 := by
  rw [supportedReport_plain_byte_count ⟨2, true, true, true, []⟩
    [AlarmCmd_SupportedReport, 3, 1, 2, 3] (by decide) rfl]
  decide

theorem filterMap_range14_mem (s : AdapterState) (f : Nat → Frame)
    (hst : ∀ i, i < Alarm_Count → (i + 3 ∈ s.store ↔ (i = 0 ∨ i = 2))) :
    ((List.range Alarm_Count).filterMap fun i =>
      if i + 3 ∈ s.store then some (f i) else none) = [f 0, f 2] := by
  have hpos : ∀ i, i < Alarm_Count → (i = 0 ∨ i = 2) →
      (if i + 3 ∈ s.store then some (f i) else none) = some (f i) :=
    fun i hi hor => if_pos ((hst i hi).mpr hor)
  have hneg : ∀ i, i < Alarm_Count → ¬(i = 0 ∨ i = 2) →
      (if i + 3 ∈ s.store then some (f i) else none) = none :=
    fun i hi hor => if_neg fun hm => hor ((hst i hi).mp hm)
  have hF : ∀ (a : Nat) (l : List Nat), a < Alarm_Count → ¬(a = 0 ∨ a = 2) →
      List.filterMap (fun i => if i + 3 ∈ s.store then some (f i) else none) (a :: l) =
        List.filterMap (fun i => if i + 3 ∈ s.store then some (f i) else none) l :=
    fun a l ha hor => List.filterMap_cons_none (hneg a ha hor)
  have hS : ∀ (a : Nat) (l : List Nat), a < Alarm_Count → (a = 0 ∨ a = 2) →
      List.filterMap (fun i => if i + 3 ∈ s.store then some (f i) else none) (a :: l) =
        f a :: List.filterMap (fun i => if i + 3 ∈ s.store then some (f i) else none) l :=
    fun a l ha hor => List.filterMap_cons_some (hpos a ha hor)
  rw [show List.range Alarm_Count = [0, 1, 2, 3, 4, 5, 6, 7, 8, 9, 10, 11, 12, 13] by decide]
  rw [hS 0 _ (by decide) (by decide), hF 1 _ (by decide) (by decide),
    hS 2 _ (by decide) (by decide), hF 3 _ (by decide) (by decide),
    hF 4 _ (by decide) (by decide), hF 5 _ (by decide) (by decide),
    hF 6 _ (by decide) (by decide), hF 7 _ (by decide) (by decide),
    hF 8 _ (by decide) (by decide), hF 9 _ (by decide) (by decide),
    hF 10 _ (by decide) (by decide), hF 11 _ (by decide) (by decide),
    hF 12 _ (by decide) (by decide), hF 13 _ (by decide) (by decide),
    List.filterMap_nil]

/-- C4: poll sequencing as a function of version and discovered set.  At
version 1 a poll (RequestState with both request flags) yields exactly one
Get frame; at version 2 with capability discovery still pending a poll yields
exactly one SupportedGet frame and no Get frame; at version 3 with discovery
done and discovered set `{0, 2}` a poll yields exactly two Get frames, each
with declared length 5 and argument bytes ending in the `0x01`
first-event-only flag. -/
theorem poll_sequencing_by_version :
    (∀ s : AdapterState, s.version = 1 → s.getSupported = true →
      requestState s true true = ([⟨2, AlarmCmd_Get, []⟩], true)) ∧
    (∀ s : AdapterState, s.version = 2 → s.hasStaticRequestValues = true →
      requestState s true true = ([⟨2, AlarmCmd_SupportedGet, []⟩], true)) ∧
    (∀ s : AdapterState, s.version = 3 → s.hasStaticRequestValues = false →
      s.getSupported = true →
      (∀ i, i < Alarm_Count → (i + 3 ∈ s.store ↔ (i = 0 ∨ i = 2))) →
      requestState s true true =
        ([⟨5, AlarmCmd_Get, [0, 0, 1]⟩, ⟨5, AlarmCmd_Get, [0, 2, 1]⟩], true)) := by
  refine ⟨?_, ?_, ?_⟩
  · intro s hv hg
    simp [requestState, requestValue, hv, hg]
  · intro s hv hs
    simp [requestState, hv, hs]
  · intro s hv hs hg hst
    have hfm := filterMap_range14_mem s (fun i => ⟨5, AlarmCmd_Get, [0, i, 1]⟩) hst
    simp only [requestState, requestValue, hv, hs, hg]
    norm_num
    constructor
    · exact hfm
    · exact ⟨0, by decide, (hst 0 (by decide)).mpr (Or.inl rfl), by simp⟩

/-- C4 witness: the three poll shapes at concrete states (version 1; version
2 with discovery pending; version 3 with discovered set `{0, 2}`, realized by
the store `[0, 1, 2, 3, 5]` that discovery itself produces). -/
theorem poll_sequencing_by_version_witness :
    requestState ⟨1, true, true, true, [0, 1]⟩ true true = ([⟨2, AlarmCmd_Get, []⟩], true) ∧
    requestState ⟨2, true, true, true, [0, 1]⟩ true true =
      ([⟨2, AlarmCmd_SupportedGet, []⟩], true) ∧
    requestState ⟨3, false, true, true, [0, 1, 2, 3, 5]⟩ true true =
      ([⟨5, AlarmCmd_Get, [0, 0, 1]⟩, ⟨5, AlarmCmd_Get, [0, 2, 1]⟩], true) :=
  ⟨poll_sequencing_by_version.1 ⟨1, true, true, true, [0, 1]⟩ rfl rfl,
   poll_sequencing_by_version.2.1 ⟨2, true, true, true, [0, 1]⟩ rfl rfl,
   poll_sequencing_by_version.2.2 ⟨3, false, true, true, [0, 1, 2, 3, 5]⟩ rfl rfl rfl
     (by decide)⟩

theorem handleMsg_creates_store_indep (v : Nat) (hs gs na : Bool)
    (st₁ st₂ : List Nat) (data : List Nat) (len : Nat) :
    (handleMsg ⟨v, hs, gs, na, st₁⟩ data len).creates =
      (handleMsg ⟨v, hs, gs, na, st₂⟩ data len).creates := by
  by_cases h1 : byteAt data 0 = AlarmCmd_Report
  · simp [handleMsg, h1, handleReport]
  · by_cases h2 : byteAt data 0 = AlarmCmd_SupportedReport
    · cases na
      · simp [handleMsg, h1, h2, handleSupported, AlarmCmd_Report, AlarmCmd_SupportedReport]
      · simp [handleMsg, h1, h2, handleSupported, AlarmCmd_Report, AlarmCmd_SupportedReport]
    · simp [handleMsg, h1, h2]

theorem applyCreates_idem (store c : List Nat) :
    applyCreates (applyCreates store c) c = applyCreates store c := by
  unfold applyCreates
  have hnil : (c.filter fun x =>
      !(store ++ c.filter fun y => !store.contains y).contains x) = [] := by
    rw [List.filter_eq_nil_iff]
    intro a ha h
    rw [Bool.not_eq_true'] at h
    have hmem : a ∈ store ++ List.filter (fun y => !store.contains y) c := by
      by_cases hm : a ∈ store
      · exact List.mem_append_left _ hm
      · refine List.mem_append_right _ ?_
        rw [List.mem_filter]
        exact ⟨ha, by simp [hm]⟩
    have hc : (store ++ List.filter (fun y => !store.contains y) c).contains a = true := by
      simpa using hmem
    rw [hc] at h
    cases h
  rw [hnil, List.append_nil]

/-- C6 counterexample: processing the SupportedReport frame `[0x08, 1, 0x01]`
once from the post-`CreateVars` state (store `[0, 1]`) requests creation of
identifiers 2 (SourceNodeId) and 3 (ordinal 0); processing the same frame
again from the resulting state — in which 2 and 3 are already materialized —
requests creation of 2 and 3 once more: re-discovery does signal duplicate
attribute creation to the store, which the claim says never happens. -/
theorem supportedReport_duplicate_creates :
    (handleMsg ⟨2, true, true, true, [0, 1]⟩ [AlarmCmd_SupportedReport, 1, 1] 3).creates
      = [2, 3] ∧
    applyCreates [0, 1] [2, 3] = [0, 1, 2, 3] ∧
    (handleMsg ⟨2, false, true, true, [0, 1, 2, 3]⟩ [AlarmCmd_SupportedReport, 1, 1] 3).creates
      = [2, 3] ∧
    ([2, 3] : List Nat) ≠ [] := by decide

/-- C6 (amended): processing the same SupportedReport frame twice yields a
discovered set (the store contents, under the collaborator contract that the
store deduplicates attribute identifiers) equal to the result of one
processing; however, the second processing signals exactly the same creation
requests as the first — the code re-requests creation of every
already-discovered identifier and checks nothing before doing so. -/
theorem supportedReport_reprocess_idempotent (s : AdapterState) (data : List Nat) (len : Nat) :
    ((handleMsg { s with store := applyCreates s.store (handleMsg s data len).creates }
        data len).creates = (handleMsg s data len).creates) ∧
    (applyCreates (applyCreates s.store (handleMsg s data len).creates)
        ((handleMsg { s with store := applyCreates s.store (handleMsg s data len).creates }
          data len).creates) = applyCreates s.store (handleMsg s data len).creates) := by
  obtain ⟨v, hs, gs, na, st⟩ := s
  have hind := handleMsg_creates_store_indep v hs gs na
    (applyCreates st (handleMsg ⟨v, hs, gs, na, st⟩ data len).creates) st data len
  exact ⟨hind, by
    rw [hind]
    exact applyCreates_idem st (handleMsg ⟨v, hs, gs, na, st⟩ data len).creates⟩

/-- C7 counterexample: a SupportedReport frame arriving while no node is
available is not processed at all (no attribute creation, no log), yet
`ClearStaticRequest` still runs — the capability-discovery flag is cleared by
an unsuccessfully processed SupportedReport, which the claim says leaves it
set. -/
theorem supportedReport_clears_flag_without_node :
    (handleMsg ⟨2, true, true, false, []⟩ [AlarmCmd_SupportedReport, 1, 1] 3).creates = [] ∧
    (handleMsg ⟨2, true, true, false, []⟩ [AlarmCmd_SupportedReport, 1, 1] 3).logs = 0 ∧
    (handleMsg ⟨2, true, true, false, []⟩ [AlarmCmd_SupportedReport, 1, 1] 3).hasStaticAfter
      = false := by decide

/-- C7 (amended): the capability-discovery flag is set on construction at
every version (in particular when version ≥ 2) and is cleared exactly by
handling a SupportedReport frame — including one handled without effect
because no node is available; no other inbound frame changes it. -/
theorem static_request_flag_lifecycle :
    (∀ (v : Nat) (gs na : Bool), (mkAlarm v gs na).hasStaticRequestValues = true) ∧
    (∀ (s : AdapterState) (data : List Nat) (len : Nat),
      byteAt data 0 ≠ AlarmCmd_SupportedReport →
      (handleMsg s data len).hasStaticAfter = s.hasStaticRequestValues) ∧
    (∀ (s : AdapterState) (data : List Nat) (len : Nat),
      byteAt data 0 = AlarmCmd_SupportedReport →
      (handleMsg s data len).hasStaticAfter = false) := by
  refine ⟨fun v gs na => rfl, ?_, ?_⟩
  · intro s data len h
    unfold handleMsg
    by_cases h1 : byteAt data 0 = AlarmCmd_Report
    · rw [if_pos h1]
      rfl
    · rw [if_neg h1, if_neg h]
  · intro s data len h
    unfold handleMsg
    rw [if_neg (by rw [h]; decide), if_pos h]
    unfold handleSupported
    split <;> rfl

/-- C7 witness: the flag lifecycle evaluated at concrete states — set by the
constructor at version 2, untouched by a Report frame, cleared by a
SupportedReport frame. -/
theorem static_request_flag_lifecycle_witness :
    (mkAlarm 2 true true).hasStaticRequestValues = true ∧
    (handleMsg ⟨2, true, true, true, [0, 1]⟩ [AlarmCmd_Report, 1, 2, 0, 0, 0, 0] 7).hasStaticAfter
      = true ∧
    (handleMsg ⟨2, true, true, true, [0, 1]⟩ [AlarmCmd_SupportedReport, 1, 1] 3).hasStaticAfter
      = false :=
  ⟨static_request_flag_lifecycle.1 2 true true,
   static_request_flag_lifecycle.2.1 ⟨2, true, true, true, [0, 1]⟩
     [AlarmCmd_Report, 1, 2, 0, 0, 0, 0] 7 (by decide),
   static_request_flag_lifecycle.2.2 ⟨2, true, true, true, [0, 1]⟩
     [AlarmCmd_SupportedReport, 1, 1] 3 (by decide)⟩

/-- C8: for every inbound frame whose opcode is neither Report nor
SupportedReport, `HandleMsg` drops the frame with no refresh, no creation, no
log and no flag change, and returns false; for the two consumed opcodes it
returns true.  `handleMsg` is a total function, so no decode error can
propagate as an exception. -/
theorem handleMsg_unknown_opcode_noop (s : AdapterState) (data : List Nat) (len : Nat) :
    (byteAt data 0 ≠ AlarmCmd_Report → byteAt data 0 ≠ AlarmCmd_SupportedReport →
      handleMsg s data len =
        { consumed := false, refreshes := [], stringRefreshes := [], creates := [],
          readsIdx := [0], logs := 0, hasStaticAfter := s.hasStaticRequestValues }) ∧
    ((byteAt data 0 = AlarmCmd_Report ∨ byteAt data 0 = AlarmCmd_SupportedReport) →
      (handleMsg s data len).consumed = true) := by
  constructor
  · intro h1 h2
    unfold handleMsg
    rw [if_neg h1, if_neg h2]
  · rintro (h | h)
    · unfold handleMsg
      rw [if_pos h]
      rfl
    · unfold handleMsg
      rw [if_neg (by rw [h]; decide), if_pos h]
      unfold handleSupported
      split <;> rfl

/-- C8 witness: a Set frame (opcode 0x06) is dropped with state unchanged and
result false; a Report frame is consumed with result true. -/
theorem handleMsg_unknown_opcode_noop_witness :
    handleMsg ⟨1, true, true, true, [0, 1]⟩ [AlarmCmd_Set] 1 =
      { consumed := false, refreshes := [], stringRefreshes := [], creates := [],
        readsIdx := [0], logs := 0, hasStaticAfter := true } ∧
    (handleMsg ⟨1, true, true, true, [0, 1]⟩ [AlarmCmd_Report, 3, 4] 3).consumed = true :=
  ⟨(handleMsg_unknown_opcode_noop ⟨1, true, true, true, [0, 1]⟩ [AlarmCmd_Set] 1).1
      (by decide) (by decide),
   (handleMsg_unknown_opcode_noop ⟨1, true, true, true, [0, 1]⟩ [AlarmCmd_Report, 3, 4] 3).2
      (Or.inl (by decide))⟩

theorem handleReport_refreshes_eq (s : AdapterState) (data : List Nat) (len : Nat) :
    (handleReport s data len).refreshes =
      (if s.store.contains AlarmIndex_Type then [(AlarmIndex_Type, byteAt data 1)] else []) ++
      (if s.store.contains AlarmIndex_Level then [(AlarmIndex_Level, byteAt data 2)] else []) ++
      (if s.version > 1 ∧ len ≥ 7 then
        (if s.store.contains AlarmIndex_SourceNodeId then
          [(AlarmIndex_SourceNodeId, byteAt data 3)] else []) ++
        (if s.store.contains (byteAt data 5 + 3) then
          [(byteAt data 5 + 3, byteAt data 6)] else [])
      else []) := by
  by_cases hv2 : s.version > 1 ∧ len ≥ 7
  · simp [handleReport, hv2]
  · simp [handleReport, hv2]

/-- C9: for a Report frame handled at version ≥ 2 whose sub-type ordinal
names an attribute that is not materialized in the store, the write of the
sub-type event value is a no-op: no refresh targets the identifier
`_data[5] + 3`, nothing is created, the handling still emits its diagnostic
log line, and the fixed attributes (primary type, primary level, and at
length ≥ 7 the source node) are still refreshed where materialized.  The
handler is a total function, so no crash path exists. -/
theorem report_unmaterialized_subtype_noop (s : AdapterState) (data : List Nat) (len : Nat)
    (hop : byteAt data 0 = AlarmCmd_Report)
    (hv : s.version > 1)
    (hsub : s.store.contains (byteAt data 5 + 3) = false) :
    (∀ p ∈ (handleMsg s data len).refreshes, p.1 ≠ byteAt data 5 + 3) ∧
    (handleMsg s data len).creates = [] ∧
    (s.store.contains AlarmIndex_Type = true →
      (AlarmIndex_Type, byteAt data 1) ∈ (handleMsg s data len).refreshes) ∧
    (s.store.contains AlarmIndex_Level = true →
      (AlarmIndex_Level, byteAt data 2) ∈ (handleMsg s data len).refreshes) ∧
    (len ≥ 7 → s.store.contains AlarmIndex_SourceNodeId = true →
      (AlarmIndex_SourceNodeId, byteAt data 3) ∈ (handleMsg s data len).refreshes) ∧
    (handleMsg s data len).logs = 1 := by
  have hmsg : handleMsg s data len = handleReport s data len := by
    unfold handleMsg
    rw [if_pos hop]
  have hr := handleReport_refreshes_eq s data len
  refine ⟨?_, by rw [hmsg]; rfl, ?_, ?_, ?_, by rw [hmsg]; rfl⟩
  · intro p hp
    rw [hmsg, hr] at hp
    simp only [List.mem_append] at hp
    rcases hp with ((h | h) | h) <;> split_ifs at h <;>
      simp_all [AlarmIndex_Type, AlarmIndex_Level, AlarmIndex_SourceNodeId]
  · intro ht
    rw [hmsg, hr]
    have hm : AlarmIndex_Type ∈ s.store := by simpa using ht
    simp [hm]
  · intro hl
    rw [hmsg, hr]
    have hm : AlarmIndex_Level ∈ s.store := by simpa using hl
    simp [hm]
  · intro hlen hsrc
    rw [hmsg, hr]
    have hm : AlarmIndex_SourceNodeId ∈ s.store := by simpa using hsrc
    simp [hm, hv, hlen]

/-- C9 witness: at version 2 with store `[0, 1, 2]` and a Report frame whose
sub-type ordinal 4 names the unmaterialized identifier 7, the primary type is
still refreshed and nothing is created. -/
theorem report_unmaterialized_subtype_noop_witness :
    (AlarmIndex_Type, 7) ∈
      (handleMsg ⟨2, true, true, true, [0, 1, 2]⟩ [5, 7, 8, 9, 1, 4, 6] 7).refreshes ∧
    (handleMsg ⟨2, true, true, true, [0, 1, 2]⟩ [5, 7, 8, 9, 1, 4, 6] 7).creates = [] := by
  have h := report_unmaterialized_subtype_noop ⟨2, true, true, true, [0, 1, 2]⟩
    [5, 7, 8, 9, 1, 4, 6] 7 (by decide) (by decide) (by decide)
  exact ⟨h.2.2.1 (by decide), h.2.1⟩

/-- C10: with both request flags set, while the capability-discovery request
is pending at version ≥ 2, `RequestState` sends exactly one SupportedGet
frame and returns true at once — the dynamic per-ordinal poll does not run in
that call; conversely a Get frame can only be emitted by such a call once the
pending static request has been cleared or at version 1. -/
theorem requestState_static_priority :
    (∀ s : AdapterState, s.version > 1 → s.hasStaticRequestValues = true →
      requestState s true true = ([⟨2, AlarmCmd_SupportedGet, []⟩], true)) ∧
    (∀ (s : AdapterState) (f : Frame), s.version ≥ 1 →
      f ∈ (requestState s true true).1 → f.cmd = AlarmCmd_Get →
      s.hasStaticRequestValues = false ∨ s.version = 1) := by
  constructor
  · intro s hv hs
    unfold requestState
    rw [if_pos ⟨rfl, hs, hv⟩]
  · intro s f hv hf hcmd
    by_cases hc : s.hasStaticRequestValues = true ∧ s.version > 1
    · exfalso
      unfold requestState at hf
      rw [if_pos ⟨rfl, hc.1, hc.2⟩] at hf
      simp only [List.mem_singleton] at hf
      rw [hf] at hcmd
      simp [AlarmCmd_SupportedGet, AlarmCmd_Get] at hcmd
    · rcases not_and_or.mp hc with h | h
      · exact Or.inl (Bool.not_eq_true _ ▸ Bool.eq_false_iff.mpr (fun he => h he))
      · exact Or.inr (by omega)

/-- C10 witness: at version 2 with the static request pending, a poll with
both flags yields exactly the SupportedGet frame; and the Get frame emitted
at version 1 certifies the version-1 disjunct. -/
theorem requestState_static_priority_witness :
    requestState ⟨2, true, true, true, [0, 1, 2, 3]⟩ true true =
      ([⟨2, AlarmCmd_SupportedGet, []⟩], true) ∧
    (((⟨1, true, true, true, []⟩ : AdapterState).hasStaticRequestValues = false) ∨
      ((⟨1, true, true, true, []⟩ : AdapterState).version = 1)) :=
  ⟨requestState_static_priority.1 ⟨2, true, true, true, [0, 1, 2, 3]⟩ (by decide) rfl,
   requestState_static_priority.2 ⟨1, true, true, true, []⟩ ⟨2, AlarmCmd_Get, []⟩
     (by decide) (by decide) rfl⟩
